import Mathlib

/-!
Verification development for the SkyExplorer repository.

The definitions below are a shallow embedding of the core of the repository:

* `sky_explorer/opensky_api.py` — the OpenSky REST client (`OpenSkyApi`):
  `_get_json`, `get_states`, `get_aircraft`, `get_arrival`, `get_departure`,
  `_parse_instance`, the `STATE_COLUMNS` field-spec table and the
  `AIRCRAFT_COLUMNS` list;
* `sky_explorer/utils.py` — the geodesy and prediction helpers:
  `_predict_next_latlon`, `predict_airplanes`, and the haversine distance
  (of the `haversine` package) that `sort_by_location` ranks rows by.  The
  sort itself, pandas `sort_values` with its default (unstable) sort kind,
  is not modelled: no deterministic embedding of its tie behaviour at the
  level of this development would be faithful.

Modelling conventions:

* Python floats are idealised as real numbers in the geodesy code and as
  rationals in the wire-decoding code (where every claim is settled on
  concrete inputs).
* JSON values are a small inductive type; `datetime` values are carried as
  their epoch-seconds value.
* Raised Python exceptions are an `Except PyErr` result; a function that
  returns normally is `Except.ok`.
* The HTTP transport is a function from the issued call to the response it
  produces; functions that issue requests also return the list of calls they
  performed, so "how many network calls happened" is part of the result.
-/

namespace SkyExplorer

/-- JSON values as delivered by the upstream REST API.  Numbers are modelled
as rationals, `datetime`-typed products of decoding carry epoch seconds. -/
inductive Json where
  | null : Json
  | bool (b : Bool) : Json
  | num (q : ℚ) : Json
  | str (s : String) : Json
  | arr (elems : List Json) : Json
  | obj (fields : List (String × Json)) : Json

/-- Python truthiness of a JSON value: `None`, `False`, `0`, `""`, `[]` and
an empty dict are falsy, everything else is truthy. -/
def truthy : Json → Bool
  | .null => false
  | .bool b => b
  | .num q => q != 0
  | .str s => s != ""
  | .arr elems => !elems.isEmpty
  | .obj fields => !fields.isEmpty

/-- Python `str(x)` on a JSON scalar.  The state rows decoded by the client
only ever apply it to wire strings; the container cases are placeholders. -/
def pyStr : Json → String
  | .str s => s
  | .null => "None"
  | .bool true => "True"
  | .bool false => "False"
  | .num q => toString q
  | .arr _ => "<list>"
  | .obj _ => "<dict>"

/-- Python `str.strip()`: remove whitespace from both ends of the string
(defined structurally on the character list). -/
def pyStrip (s : String) : String :=
  ⟨((s.toList.dropWhile Char.isWhitespace).reverse.dropWhile Char.isWhitespace).reverse⟩

/-- Python `float(x)` on the truthy JSON scalars the coercion table feeds it
(wire numbers and booleans); other shapes do not occur in numeric fields. -/
def asNum : Json → ℚ
  | .num q => q
  | .bool true => 1
  | .bool false => 0
  | _ => 0

/-- A decoded field value: the codomain of the `STATE_COLUMNS` coercion
functions (`None` is `pnone`, `datetime.fromtimestamp` products are
`pdatetime` carrying epoch seconds). -/
inductive PyVal where
  | pstr (s : String) : PyVal
  | pnum (q : ℚ) : PyVal
  | pbool (b : Bool) : PyVal
  | pnone : PyVal
  | pdatetime (epoch : ℚ) : PyVal
  deriving DecidableEq, Repr

/-- The `OpenSkyApi.STATE_COLUMNS` table: field name paired with its coercion
function; `none` stands for the Python entries whose value is `None` (those
columns are dropped by `_parse_instance`).  Each lambda mirrors the source:
for example `azimuth` is `lambda x: 360 - float(x) if x else None` and
`baro_altitude` is `lambda x: float(x) if x else 0`. -/
def STATE_COLUMNS : List (String × Option (Json → PyVal)) :=
  [("icao24", some (fun x => .pstr (pyStr x))),
   ("callsign", some (fun x => .pstr (pyStrip (pyStr x)))),
   ("origin_country", some (fun x => .pstr (pyStr x))),
   ("time_position", some (fun x => if truthy x then .pdatetime (asNum x) else .pnone)),
   ("last_contact", none),
   ("longitude", some (fun x => if truthy x then .pnum (asNum x) else .pnone)),
   ("latitude", some (fun x => if truthy x then .pnum (asNum x) else .pnone)),
   ("baro_altitude", some (fun x => if truthy x then .pnum (asNum x) else .pnum 0)),
   ("on_ground", none),
   ("velocity", some (fun x => if truthy x then .pnum (asNum x) else .pnum 0)),
   ("azimuth", some (fun x => if truthy x then .pnum (360 - asNum x) else .pnone)),
   ("vertical_rate", none),
   ("sensors", none),
   ("geo_altitude", none),
   ("squawk", none),
   ("spi", none),
   ("position_source", none),
   ("_", none)]

/-- `OpenSkyApi._parse_instance`: zip the positional row against the field
table and keep `name ↦ func(value)` for the entries whose coercion function
is truthy (non-`None`), in order — a dict comprehension modelled as an
association list. -/
def parseInstance (row : List Json)
    (fields : List (String × Option (Json → PyVal))) : List (String × PyVal) :=
  (row.zip fields).filterMap fun p =>
    match p.2.2 with
    | some f => some (p.2.1, f p.1)
    | none => none

/-- The Python exceptions the embedded client code can raise. -/
inductive PyErr where
  | jsonDecodeError : PyErr
  | keyError (key : String) : PyErr
  | typeError : PyErr
  | attributeError (attr : String) : PyErr
  | valueError (msg : String) : PyErr
  deriving DecidableEq, Repr

/-- An HTTP response as seen by `_get_json`: status code, reason phrase and
the body.  The body is `some j` when it parses as the JSON value `j` and
`none` when `response.json()` would fail to parse it. -/
structure HttpResponse where
  status : Nat
  reason : String
  body : Option Json

/-- `OpenSkyApi._get_json` applied to the response the transport produced:
on a 200 status it parses and returns the body (raising `JSONDecodeError` if
the body is not valid JSON), on any other status it logs the status and
reason at debug level and returns `None`.  No exception is raised for a
non-200 status. -/
def getJson (response : HttpResponse) : Except PyErr (Option Json) :=
  if response.status = 200 then
    match response.body with
    | some j => .ok (some j)
    | none => .error .jsonDecodeError
  else
    .ok none

/-- Python subscription `j[key]` on a JSON value: a dict lookup that raises
`KeyError` when the key is absent and `TypeError` when the value is not a
dict. -/
def jsonIndex (j : Json) (key : String) : Except PyErr Json :=
  match j with
  | .obj fields =>
    match fields.lookup key with
    | some v => .ok v
    | none => .error (.keyError key)
  | _ => .error .typeError

/-- Python iteration over a JSON value: a list yields its elements, a dict
yields its keys, a string yields its characters as one-character strings;
other values are not iterable and raise `TypeError`. -/
def pyIter : Json → Except PyErr (List Json)
  | .arr elems => .ok elems
  | .obj fields => .ok (fields.map fun kv => .str kv.1)
  | .str s => .ok (s.toList.map fun c => .str (String.singleton c))
  | _ => .error .typeError

/-- `OpenSkyApi._check_lat`: raises `ValueError` outside [-90, 90]. -/
def checkLat (lat : ℚ) : Except PyErr Unit :=
  if lat < -90 ∨ lat > 90 then .error (.valueError ("Invalid latitude")) else .ok ()

/-- `OpenSkyApi._check_lon`: raises `ValueError` outside [-180, 180]. -/
def checkLon (lon : ℚ) : Except PyErr Unit :=
  if lon < -180 ∨ lon > 180 then .error (.valueError ("Invalid longitude")) else .ok ()

/-- The decoded state records that survive
`pd.DataFrame(data).dropna()` in `get_states`: each wire row is decoded by
`_parse_instance` against `STATE_COLUMNS`, and a record holding a missing
value (`None`, pandas `NaN`) in any column is dropped wholesale. -/
def statesRecords (rows : List (List Json)) : List (List (String × PyVal)) :=
  (rows.map fun row => parseInstance row STATE_COLUMNS).filter
    fun record => record.all fun field => field.2 ≠ PyVal.pnone

/-- `OpenSkyApi.get_states` from the response the transport produced for the
`/states/all` request.  Bounds, when given, are validated before anything
else; then the walrus `if json := self._get_json(...)` returns `None` for a
falsy body, and otherwise the rows under the key `states` are decoded,
`dropna`-filtered and indexed by `icao24` (`set_index` raises `KeyError`
when no decoded row has an `icao24` column). -/
def getStates (response : HttpResponse)
    (bounds : Option (ℚ × ℚ × ℚ × ℚ)) :
    Except PyErr (Option (List (List (String × PyVal)))) := do
  match bounds with
  | none => pure ()
  | some b => do
    checkLat b.1
    checkLat b.2.1
    checkLon b.2.2.1
    checkLon b.2.2.2
  let json? ← getJson response
  match json? with
  | some j =>
    if truthy j then do
      let states ← jsonIndex j ("states")
      let stateList ← pyIter states
      let rows ← stateList.mapM pyIter
      let data := rows.map fun row => parseInstance row STATE_COLUMNS
      if data.any (fun record => record.any fun field => field.1 == "icao24") then
        pure (some (statesRecords rows))
      else
        throw (.keyError ("icao24"))
    else pure none
  | none => pure none

/-- A value sent as a query parameter.  `get_aircraft`, `get_arrival` and
`get_departure` send an `int` epoch when `begin`/`end` are given, but the
raw `datetime` object `datetime.utcnow() - timedelta(days=1)` when they are
omitted. -/
inductive ParamVal where
  | int (n : ℤ) : ParamVal
  | datetimeVal (epoch : ℚ) : ParamVal
  | str (s : String) : ParamVal
  deriving DecidableEq, Repr

/-- One HTTP GET issued through `_get_json`: URL suffix and query params. -/
structure HttpCall where
  urlSuffix : String
  params : List (String × ParamVal)
  deriving DecidableEq, Repr

/-- Python `int()` on a number: truncation toward zero. -/
def pyInt (q : ℚ) : ℤ :=
  if 0 ≤ q then ⌊q⌋ else ⌈q⌉

/-- The request `get_aircraft` builds: note it targets `/tracks/all`, and
that an omitted bound is sent as a raw datetime object. `now` is the epoch
value of `datetime.utcnow()`. -/
def aircraftCall (icao24 : String) (begin? end? : Option ℚ) (now : ℚ) : HttpCall :=
  ⟨"/tracks/all",
   [("icao24", .str icao24),
    ("begin", match begin? with
      | some b => .int (pyInt b)
      | none => .datetimeVal (now - 86400)),
    ("end", match end? with
      | some e => .int (pyInt e)
      | none => .datetimeVal now)]⟩

/-- The request `get_arrival` (resp. `get_departure`) builds for an airport
code, against `/flights/arrival` (resp. `/flights/departure`). -/
def airportCall (urlSuffix : String) (icao : String)
    (begin? end? : Option ℚ) (now : ℚ) : HttpCall :=
  ⟨urlSuffix,
   [("icao", .str icao),
    ("begin", match begin? with
      | some b => .int (pyInt b)
      | none => .datetimeVal (now - 86400)),
    ("end", match end? with
      | some e => .int (pyInt e)
      | none => .datetimeVal now)]⟩

/-- The `AIRCRAFT_COLUMNS` list of `OpenSkyApi`. -/
def AIRCRAFT_COLUMNS : List String :=
  ["first_seen", "last_seen", "icao24", "callsign",
   "est_departure_airport", "est_arrival_airport"]

/-- The rows of `pd.DataFrame((dict(zip(AIRCRAFT_COLUMNS, x)) for x in json))`:
each element `x` of the response is iterated (a JSON object yields its keys)
and zipped positionally against `AIRCRAFT_COLUMNS`. -/
def flightRows (json : Json) : Except PyErr (List (List (String × Json))) := do
  let items ← pyIter json
  items.mapM fun x => do
    let vals ← pyIter x
    pure (AIRCRAFT_COLUMNS.zip vals)

/-- The columns of a frame built from keyed rows: union of the row keys in
order of first appearance. -/
def dfColumns (rows : List (List (String × Json))) : List String :=
  rows.foldl (fun acc row =>
    acc ++ ((row.map Prod.fst).filter fun k => !acc.contains k)) []

/-- The transform `pd.to_datetime(v * 1e9).dt.tz_localize("utc")` applied to
an epoch-seconds column: with nanosecond input units it denotes the same
instant, modelled as the epoch value itself. -/
def toDatetimeUtc (v : Json) : Json :=
  match v with
  | .num q => .num q
  | other => other

/-- The transform `df.callsign.str.strip()` on one cell: strings are
trimmed, non-string cells become NaN (modelled as `null`). -/
def jsonStrip (v : Json) : Json :=
  match v with
  | .str s => .str (pyStrip s)
  | _ => .null

/-- Comparison used by `sort_values` on a timestamp column; only numeric
epoch cells are meaningfully ordered (other shapes are unreachable on the
frames the client builds). -/
def jsonLe : Option Json → Option Json → Bool
  | some (.num p), some (.num q) => p ≤ q
  | _, _ => true

/-- The body of `get_aircraft` applied to the response: the walrus test, the
frame of zipped rows, then `.assign(firstSeen=..., lastSeen=...)` whose
first lambda reads `df.firstSeen` — an attribute access that raises
`AttributeError` whenever the frame has no `firstSeen` column (the zipped
columns are the snake_case `AIRCRAFT_COLUMNS`, so this always fires on a
nonempty frame) — and finally `.sort_values("last_seen")`. -/
def processAircraft (response : HttpResponse) :
    Except PyErr (Option (List (List (String × Json)))) := do
  let json? ← getJson response
  match json? with
  | some j =>
    if truthy j then do
      let rows ← flightRows j
      let cols := dfColumns rows
      if cols.contains ("firstSeen") then
        let rows := rows.map fun row => row.map fun kv =>
          if kv.1 == "firstSeen" ∨ kv.1 == "lastSeen" then (kv.1, toDatetimeUtc kv.2)
          else kv
        pure (some (rows.mergeSort fun r1 r2 =>
          jsonLe (r1.lookup ("last_seen")) (r2.lookup ("last_seen"))))
      else throw (.attributeError ("firstSeen"))
    else pure none
  | none => pure none

/-- The shared body of `get_arrival` and `get_departure` applied to the
response: the walrus test, the frame of zipped rows, the
`.query("callsign == callsign")` filter (which keeps every row whose
callsign cell is not NaN — an empty or blank string is kept), then
`.assign(firstSeen=..., lastSeen=..., callsign=...)` whose first lambda
reads the nonexistent `df.firstSeen` and raises `AttributeError` on any
nonempty frame, and finally `.sort_values("lastSeen")`. -/
def processAirportFlights (response : HttpResponse) :
    Except PyErr (Option (List (List (String × Json)))) := do
  let json? ← getJson response
  match json? with
  | some j =>
    if truthy j then do
      let rows ← flightRows j
      let rows := rows.filter fun row =>
        match row.lookup ("callsign") with
        | some Json.null => false
        | some _ => true
        | none => false
      let cols := dfColumns rows
      if cols.contains ("firstSeen") then
        let rows := rows.map fun row => row.map fun kv =>
          if kv.1 == "firstSeen" ∨ kv.1 == "lastSeen" then (kv.1, toDatetimeUtc kv.2)
          else if kv.1 == "callsign" then (kv.1, jsonStrip kv.2)
          else kv
        pure (some (rows.mergeSort fun r1 r2 =>
          jsonLe (r1.lookup ("lastSeen")) (r2.lookup ("lastSeen"))))
      else throw (.attributeError ("firstSeen"))
    else pure none
  | none => pure none

/-- `OpenSkyApi.get_aircraft`: builds its request (with no validation of the
`begin`/`end` interval whatsoever), issues it through the transport, and
processes the response.  The second component is the list of HTTP calls
performed. -/
def getAircraft (fetch : HttpCall → HttpResponse) (icao24 : String)
    (begin? end? : Option ℚ) (now : ℚ) :
    Except PyErr (Option (List (List (String × Json)))) × List HttpCall :=
  let call := aircraftCall icao24 begin? end? now
  (processAircraft (fetch call), [call])

/-- `OpenSkyApi.get_arrival` with its call trace. -/
def getArrival (fetch : HttpCall → HttpResponse) (icao : String)
    (begin? end? : Option ℚ) (now : ℚ) :
    Except PyErr (Option (List (List (String × Json)))) × List HttpCall :=
  let call := airportCall ("/flights/arrival") icao begin? end? now
  (processAirportFlights (fetch call), [call])

/-- `OpenSkyApi.get_departure` with its call trace. -/
def getDeparture (fetch : HttpCall → HttpResponse) (icao : String)
    (begin? end? : Option ℚ) (now : ℚ) :
    Except PyErr (Option (List (List (String × Json)))) × List HttpCall :=
  let call := airportCall ("/flights/departure") icao begin? end? now
  (processAirportFlights (fetch call), [call])

/-- The `EARTH_RADIUS` constant of `sky_explorer/utils.py` (kilometers). -/
noncomputable def EARTH_RADIUS : ℝ := 6371

/-- Python `math.atan2(y, x)`: the angle of the point `(x, y)`, following
the standard piecewise definition in terms of `arctan` (the signed-zero
distinctions of floating point collapse to the plain zero cases). -/
noncomputable def atan2 (y x : ℝ) : ℝ :=
  if 0 < x then Real.arctan (y / x)
  else if x < 0 ∧ 0 ≤ y then Real.arctan (y / x) + Real.pi
  else if x < 0 ∧ y < 0 then Real.arctan (y / x) - Real.pi
  else if x = 0 ∧ 0 < y then Real.pi / 2
  else if x = 0 ∧ y < 0 then -(Real.pi / 2)
  else 0

/-- `_predict_next_latlon` of `sky_explorer/utils.py`.  The `data` row holds
latitude, longitude, bearing (the `azimuth` column) and velocity; the
elapsed time `(time - time_position).total_seconds()` is the difference of
the epoch values.  Distance is `velocity * delta_time / 1000` kilometers and
the spherical forward-projection formula is applied verbatim. -/
noncomputable def predictNextLatLon (lat lon bearing velocity : ℝ)
    (timePosition time : ℝ) : ℝ × ℝ :=
  let deltaTime := time - timePosition
  let distance := velocity * deltaTime / 1000
  let lat2 := Real.arcsin (Real.sin (Real.pi / 180 * lat) * Real.cos (distance / EARTH_RADIUS)
    + Real.cos (Real.pi / 180 * lat) * Real.sin (distance / EARTH_RADIUS)
      * Real.cos (Real.pi / 180 * bearing))
  let lon2 := Real.pi / 180 * lon + atan2
    (Real.sin (Real.pi / 180 * bearing) * Real.sin (distance / EARTH_RADIUS)
      * Real.cos (Real.pi / 180 * lat))
    (Real.cos (distance / EARTH_RADIUS) - Real.sin (Real.pi / 180 * lat) * Real.sin lat2)
  (180 / Real.pi * lat2, 180 / Real.pi * lon2)

/-- One row of the airplanes frame: the columns `predict_airplanes` reads
and writes (`latitude`, `longitude`, `azimuth`, `velocity`,
`time_position`); `time_position` is carried as its epoch value. -/
structure Airplane where
  latitude : ℝ
  longitude : ℝ
  azimuth : ℝ
  velocity : ℝ
  timePosition : ℝ

/-- `predict_airplanes` of `sky_explorer/utils.py`: every row's latitude and
longitude are replaced by `_predict_next_latlon` of that row at the target
time; `azimuth`, `velocity` and `time_position` are untouched.  An empty
frame is returned as is, which coincides with mapping over the empty
list. -/
noncomputable def predictAirplanes (airplanes : List Airplane) (time : ℝ) :
    List Airplane :=
  airplanes.map fun a =>
    let p := predictNextLatLon a.latitude a.longitude a.azimuth a.velocity
      a.timePosition time
    { a with latitude := p.1, longitude := p.2 }

/-- The `haversine` package's distance in kilometers between two
`(latitude, longitude)` pairs: inputs in degrees, average Earth radius
6371.0088 km. -/
noncomputable def haversineKm (p1 p2 : ℝ × ℝ) : ℝ :=
  let lat1 := p1.1 * (Real.pi / 180)
  let lng1 := p1.2 * (Real.pi / 180)
  let lat2 := p2.1 * (Real.pi / 180)
  let lng2 := p2.2 * (Real.pi / 180)
  let d := Real.sin ((lat2 - lat1) * 0.5) ^ 2
    + Real.cos lat1 * Real.cos lat2 * Real.sin ((lng2 - lng1) * 0.5) ^ 2
  2 * 6371.0088 * Real.arcsin (Real.sqrt d)

/-- `_euclidean_distance` of `sky_explorer/utils.py` applied to one row of
`np.c_[df[["latitude", "longitude"]].values, np.full((len(df), 2), latlon)]`:
the haversine distance from the row's position to the reference point. -/
noncomputable def rowDistance (a : Airplane) (latlon : ℝ × ℝ) : ℝ :=
  haversineKm (a.latitude, a.longitude) latlon

/-! Concrete inputs used to settle the claims. -/

/-- A transport whose one response is `404 Not Found` with an empty body. -/
def notFoundFetch : HttpCall → HttpResponse := fun _ => ⟨404, "Not Found", none⟩

/-- A well-formed `/flights/arrival` 200 response carrying one arrival
object with the documented keys. -/
def arrivalResponse : HttpResponse :=
  ⟨200, "OK", some (Json.arr [Json.obj
    [("icao24", Json.str ("abc123")),
     ("firstSeen", Json.num 1700000000),
     ("lastSeen", Json.num 1700003600),
     ("estDepartureAirport", Json.null),
     ("estArrivalAirport", Json.str ("EHAM")),
     ("callsign", Json.str (" KLM123 "))]])⟩

/-- The documented 17-column state row of the spec, with `true_track` 90. -/
def stateRow : List Json :=
  [Json.str ("abc123"), Json.str (" KLM123 "), Json.str ("Netherlands"),
   Json.num 1700000000, Json.num 1700000000, Json.num (49/10), Json.num (523/10),
   Json.num 1000, Json.bool false, Json.num 200, Json.num 90,
   Json.null, Json.null, Json.null, Json.null, Json.null, Json.null]

/-- A state row like `stateRow` but with a `null` longitude (no position
fix). -/
def stateRowNoFix : List Json :=
  [Json.str ("def456"), Json.str ("XYZ987"), Json.str ("Netherlands"),
   Json.num 1700000000, Json.num 1700000000, Json.null, Json.num (523/10),
   Json.num 1000, Json.bool false, Json.num 200, Json.num 90,
   Json.null, Json.null, Json.null, Json.null, Json.null, Json.null]

/-- A two-row states payload: one full row, one row without a position
fix. -/
def statesRows : List (List Json) := [stateRow, stateRowNoFix]

/-! Small rewriting lemmas for `parseInstance`, used throughout. -/

/-- Decoding against a column with a coercion function keeps the field. -/
theorem parseInstance_cons_some (v : Json) (vs : List Json) (n : String)
    (f : Json → PyVal) (cs : List (String × Option (Json → PyVal))) :
    parseInstance (v :: vs) ((n, some f) :: cs) = (n, f v) :: parseInstance vs cs := by
  simp [parseInstance]

/-- Decoding against a column whose entry is `None` drops the field. -/
theorem parseInstance_cons_none (v : Json) (vs : List Json) (n : String)
    (cs : List (String × Option (Json → PyVal))) :
    parseInstance (v :: vs) ((n, none) :: cs) = parseInstance vs cs := by
  simp [parseInstance]

/-- Decoding an empty row yields the empty record. -/
theorem parseInstance_nil_left (cs : List (String × Option (Json → PyVal))) :
    parseInstance [] cs = [] := by
  simp [parseInstance]

/-- Decoding against an exhausted column table yields nothing more. -/
theorem parseInstance_nil_right (vs : List Json) :
    parseInstance vs [] = [] := by
  simp [parseInstance]

/-- Decoding against columns that are all `None` yields the empty record —
the tail of `STATE_COLUMNS` past `azimuth` contributes nothing. -/
theorem parseInstance_none_cols : ∀ (vs : List Json)
    (cs : List (String × Option (Json → PyVal))),
    (∀ p ∈ cs, p.2 = none) → parseInstance vs cs = []
  | [], _, _ => parseInstance_nil_left _
  | _ :: _, [], _ => parseInstance_nil_right _
  | v :: vs, (n, f) :: cs, h => by
    have hf : f = none := h (n, f) (List.mem_cons_self _ _)
    subst hf
    rw [parseInstance_cons_none]
    exact parseInstance_none_cols vs cs fun p hp => h p (List.mem_cons_of_mem _ hp)

/-! Claim C2 — error signalling of the fetch path. -/

/-- C2, counterexample: the claim says a 429 response makes the fetch fail
with a `RateLimited` error that propagates to the caller.  In the code a 429
response is logged and `_get_json` returns `None`, and `get_states` then
returns `None` as well — no failure of any kind is raised. -/
theorem C2_counterexample :
    getJson ⟨429, "Too Many Requests", none⟩ = .ok none
    ∧ getStates ⟨429, "Too Many Requests", none⟩ none = .ok none := by
  constructor <;> rfl

/-- C2, amended: every non-200 response (429 included) makes `_get_json`
log and return `None` — it returns the no-data value rather than failing,
and there is no `RateLimited`/`UpstreamError` taxonomy and no parsing of a
retry-after header anywhere; `get_states` consequently returns `None`. -/
theorem C2_theorem (response : HttpResponse) (h : response.status ≠ 200) :
    getJson response = .ok none ∧ getStates response none = .ok none := by
  constructor
  · simp [getJson, h]
  · simp only [getStates, getJson, if_neg h]
    rfl

/-- C2, witness: the amended theorem at a concrete 500 response. -/
theorem C2_witness :
    (500 : Nat) ≠ 200 ∧ getJson ⟨500, "Internal Server Error", none⟩ = .ok none := by
  refine ⟨by decide, ?_⟩
  exact (C2_theorem ⟨500, "Internal Server Error", none⟩ (by decide)).1

/-! Claim C3 — interval validation of the flights-by-interval fetch. -/

/-- C3, counterexample: the claim says an interval longer than 2 hours
fails with `InvalidArgument` before any HTTP request.  `get_aircraft` with
`end - begin = 3` hours performs exactly one HTTP call and, on a non-200
reply, returns `None` — no validation error is raised at any point. -/
theorem C3_counterexample :
    (getAircraft notFoundFetch ("abc123") (some 0) (some 10800) 0).2 =
      [aircraftCall ("abc123") (some 0) (some 10800) 0]
    ∧ (getAircraft notFoundFetch ("abc123") (some 0) (some 10800) 0).1 = .ok none := by
  constructor <;> rfl

/-- C3, amended: `get_aircraft` performs no interval validation at all:
even when `end - begin` exceeds 2 hours (7200 s) it builds its request
(against `/tracks/all`) and issues exactly one HTTP call, and a non-200
reply yields `None` rather than any error. -/
theorem C3_theorem (fetch : HttpCall → HttpResponse) (icao24 : String)
    (b e : ℚ) (now : ℚ) (hinterval : 7200 < e - b) :
    (getAircraft fetch icao24 (some b) (some e) now).2 =
      [aircraftCall icao24 (some b) (some e) now]
    ∧ ((fetch (aircraftCall icao24 (some b) (some e) now)).status ≠ 200 →
        (getAircraft fetch icao24 (some b) (some e) now).1 = .ok none) := by
  refine ⟨rfl, fun h => ?_⟩
  simp only [getAircraft, processAircraft, getJson, if_neg h]
  rfl

/-- C3, witness: the amended theorem on a 3-hour interval and a transport
answering `404`. -/
theorem C3_witness :
    (7200 : ℚ) < 10800 - 0
    ∧ (getAircraft notFoundFetch ("abc123") (some 0) (some 10800) 0).2 =
        [aircraftCall ("abc123") (some 0) (some 10800) 0] := by
  refine ⟨by norm_num, ?_⟩
  exact (C3_theorem notFoundFetch ("abc123") 0 10800 0 (by norm_num)).1

/-! Claim C4 — a 200 response with an absent or unexpected body. -/

/-- C4, counterexample: the claim says a 200 response whose body is absent
or not parseable as the expected shape yields an empty snapshot, never a
failure.  On a 200 response whose body is not valid JSON, `response.json()`
raises and `get_states` fails with `JSONDecodeError`. -/
theorem C4_counterexample :
    getStates ⟨200, "OK", none⟩ none = .error .jsonDecodeError := by
  rfl

/-- C4, amended: a 200 body that parses to a falsy JSON value (`null`, an
empty array or an empty object) makes `get_states` return `None` (no data);
but a 200 body that is not valid JSON fails with `JSONDecodeError`, and a
truthy 200 JSON object without a `states` key fails with `KeyError` — both
failures propagate to the caller. -/
theorem C4_theorem :
    (∀ (reason : String) (j : Json), truthy j = false →
      getStates ⟨200, reason, some j⟩ none = .ok none)
    ∧ (∀ reason : String, getStates ⟨200, reason, none⟩ none = .error .jsonDecodeError)
    ∧ getStates ⟨200, "OK", some (Json.obj [("time", Json.num 5)])⟩ none =
        .error (.keyError ("states")) := by
  refine ⟨fun reason j h => ?_, fun reason => rfl, rfl⟩
  simp [getStates, getJson, Bind.bind, Except.bind, h, Pure.pure, Except.pure]

/-- C4, witness: the amended theorem's falsy-body case at a `null` body. -/
theorem C4_witness :
    truthy Json.null = false ∧ getStates ⟨200, "OK", some Json.null⟩ none = .ok none := by
  exact ⟨rfl, C4_theorem.1 ("OK") Json.null rfl⟩

/-! Claim C5 — arrivals/departures: callsign filtering and ordering. -/

/-- C5: the claim (and the docstring of `get_arrival`) promise a flight
table with blank callsigns filtered out, sorted by `last_seen`.  The code
builds its rows with `dict(zip(AIRCRAFT_COLUMNS, x))` where `x` is the
response JSON object — zipping column names against the object's keys — and
then `.assign(...)` reads the nonexistent `df.firstSeen` column, so on any
nonempty well-formed response `get_arrival` raises `AttributeError` instead
of returning a table. -/
theorem C5_code_bug :
    (getArrival (fun _ => arrivalResponse) ("EHAM") (some 1700000000)
      (some 1700003600) 1700000000).1 = .error (.attributeError ("firstSeen")) := by
  rfl

/-! Claim C8 — identity/callsign coercion and the baro-altitude default. -/

/-- C8: decoding a well-formed state row coerces the identity field to a
string and the callsign to a whitespace-trimmed string, and the
`baro_altitude` cell decodes to 0 both when it is `null` and when it is an
explicit 0 (the decoded value is 0 either way). -/
theorem C8_theorem (s c : String) (v2 v3 v4 v5 v6 baro v8 v9 v10 v11 v12 v13 v14 v15 v16 : Json) :
    (parseInstance [Json.str s, Json.str c, v2, v3, v4, v5, v6, baro,
        v8, v9, v10, v11, v12, v13, v14, v15, v16] STATE_COLUMNS).lookup ("icao24") =
      some (.pstr s)
    ∧ (parseInstance [Json.str s, Json.str c, v2, v3, v4, v5, v6, baro,
        v8, v9, v10, v11, v12, v13, v14, v15, v16] STATE_COLUMNS).lookup ("callsign") =
      some (.pstr (pyStrip c))
    ∧ (baro = Json.null →
        (parseInstance [Json.str s, Json.str c, v2, v3, v4, v5, v6, baro,
          v8, v9, v10, v11, v12, v13, v14, v15, v16] STATE_COLUMNS).lookup ("baro_altitude") =
        some (.pnum 0))
    ∧ (baro = Json.num 0 →
        (parseInstance [Json.str s, Json.str c, v2, v3, v4, v5, v6, baro,
          v8, v9, v10, v11, v12, v13, v14, v15, v16] STATE_COLUMNS).lookup ("baro_altitude") =
        some (.pnum 0)) := by
  refine ⟨?_, ?_, fun hb => ?_, fun hb => ?_⟩ <;>
    (try subst hb) <;>
    simp [STATE_COLUMNS, parseInstance_cons_some, parseInstance_cons_none,
      parseInstance_nil_left, pyStr, truthy, List.lookup]

/-- C8, witness: the documented row, with a `null` baro-altitude cell. -/
theorem C8_witness :
    (parseInstance [Json.str ("abc123"), Json.str (" KLM123 "), Json.str ("Netherlands"),
      Json.num 1700000000, Json.num 1700000000, Json.num (49/10), Json.num (523/10),
      Json.null, Json.bool false, Json.num 200, Json.num 90,
      Json.null, Json.null, Json.null, Json.null, Json.null, Json.null]
      STATE_COLUMNS).lookup ("icao24") = some (.pstr ("abc123"))
    ∧ (parseInstance [Json.str ("abc123"), Json.str (" KLM123 "), Json.str ("Netherlands"),
      Json.num 1700000000, Json.num 1700000000, Json.num (49/10), Json.num (523/10),
      Json.null, Json.bool false, Json.num 200, Json.num 90,
      Json.null, Json.null, Json.null, Json.null, Json.null, Json.null]
      STATE_COLUMNS).lookup ("callsign") = some (.pstr ("KLM123"))
    ∧ (parseInstance [Json.str ("abc123"), Json.str (" KLM123 "), Json.str ("Netherlands"),
      Json.num 1700000000, Json.num 1700000000, Json.num (49/10), Json.num (523/10),
      Json.null, Json.bool false, Json.num 200, Json.num 90,
      Json.null, Json.null, Json.null, Json.null, Json.null, Json.null]
      STATE_COLUMNS).lookup ("baro_altitude") = some (.pnum 0) := by
  have h := C8_theorem ("abc123") (" KLM123 ") (Json.str ("Netherlands"))
    (Json.num 1700000000) (Json.num 1700000000) (Json.num (49/10)) (Json.num (523/10))
    Json.null (Json.bool false) (Json.num 200) (Json.num 90)
    Json.null Json.null Json.null Json.null Json.null Json.null
  refine ⟨h.1, ?_, h.2.2.1 rfl⟩
  have h2 := h.2.1
  have ht : pyStrip (" KLM123 ") = "KLM123" := by decide
  rw [ht] at h2
  exact h2

/-! Claim C9 — track angle and pass-through fields. -/

/-- C9, counterexample: the claim says the decoded track angle equals the
wire `true_track` value and that `vertical_rate`, `squawk`, `geo_altitude`,
`spi` and `sensors` are retained.  Decoding the documented row with
`true_track = 90` yields `azimuth = 270` (the code computes
`360 - float(x)`), and none of the pass-through fields appear in the
decoded record (their coercion entry is `None`, so the dict comprehension
drops them). -/
theorem C9_counterexample :
    (parseInstance stateRow STATE_COLUMNS).lookup ("azimuth") ≠ some (.pnum 90)
    ∧ (parseInstance stateRow STATE_COLUMNS).lookup ("azimuth") = some (.pnum 270)
    ∧ (parseInstance stateRow STATE_COLUMNS).lookup ("vertical_rate") = none
    ∧ (parseInstance stateRow STATE_COLUMNS).lookup ("sensors") = none
    ∧ (parseInstance stateRow STATE_COLUMNS).lookup ("geo_altitude") = none
    ∧ (parseInstance stateRow STATE_COLUMNS).lookup ("squawk") = none
    ∧ (parseInstance stateRow STATE_COLUMNS).lookup ("spi") = none := by
  refine ⟨?_, ?_, ?_, ?_, ?_, ?_, ?_⟩ <;>
    simp [stateRow, STATE_COLUMNS, parseInstance_cons_some, parseInstance_cons_none,
      parseInstance_nil_left, truthy, asNum, List.lookup] <;>
    norm_num

/-- C9, amended: for a well-formed state row the decoded `azimuth` is
`360 − true_track` when the wire `true_track` is truthy, and `None` when it
is 0 or `null` (an explicit 0 is treated as missing); and the fields whose
column entry is `None` (`vertical_rate`, `sensors`, `geo_altitude`,
`squawk`, `spi`, among others) are dropped from the decoded record, not
retained. -/
theorem C9_theorem (v0 v1 v2 v3 v4 v5 v6 v7 v8 v9 : Json) (q : ℚ)
    (v11 v12 v13 v14 v15 v16 : Json) :
    (q ≠ 0 →
      (parseInstance [v0, v1, v2, v3, v4, v5, v6, v7, v8, v9, Json.num q,
        v11, v12, v13, v14, v15, v16] STATE_COLUMNS).lookup ("azimuth") =
      some (.pnum (360 - q)))
    ∧ (q = 0 →
      (parseInstance [v0, v1, v2, v3, v4, v5, v6, v7, v8, v9, Json.num q,
        v11, v12, v13, v14, v15, v16] STATE_COLUMNS).lookup ("azimuth") =
      some PyVal.pnone)
    ∧ (parseInstance [v0, v1, v2, v3, v4, v5, v6, v7, v8, v9, Json.null,
        v11, v12, v13, v14, v15, v16] STATE_COLUMNS).lookup ("azimuth") =
      some PyVal.pnone
    ∧ (parseInstance [v0, v1, v2, v3, v4, v5, v6, v7, v8, v9, Json.num q,
        v11, v12, v13, v14, v15, v16] STATE_COLUMNS).lookup ("vertical_rate") = none
    ∧ (parseInstance [v0, v1, v2, v3, v4, v5, v6, v7, v8, v9, Json.num q,
        v11, v12, v13, v14, v15, v16] STATE_COLUMNS).lookup ("sensors") = none
    ∧ (parseInstance [v0, v1, v2, v3, v4, v5, v6, v7, v8, v9, Json.num q,
        v11, v12, v13, v14, v15, v16] STATE_COLUMNS).lookup ("geo_altitude") = none
    ∧ (parseInstance [v0, v1, v2, v3, v4, v5, v6, v7, v8, v9, Json.num q,
        v11, v12, v13, v14, v15, v16] STATE_COLUMNS).lookup ("squawk") = none
    ∧ (parseInstance [v0, v1, v2, v3, v4, v5, v6, v7, v8, v9, Json.num q,
        v11, v12, v13, v14, v15, v16] STATE_COLUMNS).lookup ("spi") = none := by
  refine ⟨fun hq => ?_, fun hq => ?_, ?_, ?_, ?_, ?_, ?_, ?_⟩ <;>
    (try subst hq) <;>
    simp [STATE_COLUMNS, parseInstance_cons_some, parseInstance_cons_none,
      parseInstance_nil_left, truthy, asNum, List.lookup, *]

/-- C9, witness: the amended theorem at the documented row. -/
theorem C9_witness :
    (90 : ℚ) ≠ 0
    ∧ (parseInstance [Json.str ("abc123"), Json.str (" KLM123 "), Json.str ("Netherlands"),
        Json.num 1700000000, Json.num 1700000000, Json.num (49/10), Json.num (523/10),
        Json.num 1000, Json.bool false, Json.num 200, Json.num 90,
        Json.null, Json.null, Json.null, Json.null, Json.null, Json.null]
        STATE_COLUMNS).lookup ("azimuth") = some (.pnum (360 - 90)) := by
  refine ⟨by norm_num, ?_⟩
  exact (C9_theorem (Json.str ("abc123")) (Json.str (" KLM123 ")) (Json.str ("Netherlands"))
    (Json.num 1700000000) (Json.num 1700000000) (Json.num (49/10)) (Json.num (523/10))
    (Json.num 1000) (Json.bool false) (Json.num 200) 90
    Json.null Json.null Json.null Json.null Json.null Json.null).1 (by norm_num)

/-! Claim C10 — every surviving state record has a position fix. -/

/-- The columns of `STATE_COLUMNS` past `azimuth` all have a `None`
coercion entry. -/
theorem state_tail_none :
    ∀ p ∈ [("vertical_rate", (none : Option (Json → PyVal))), ("sensors", none),
      ("geo_altitude", none), ("squawk", none), ("spi", none),
      ("position_source", none), ("_", none)], p.2 = none := by
  intro p hp
  simp only [List.mem_cons, List.not_mem_nil, or_false] at hp
  rcases hp with rfl | rfl | rfl | rfl | rfl | rfl | rfl <;> rfl

/-- A decoded optional numeric cell that is not `None` is a number. -/
theorem pnum_of_ne_pnone (b : Bool) (q : ℚ)
    (h : (if b then PyVal.pnum q else PyVal.pnone) ≠ PyVal.pnone) :
    ∃ r, (if b then PyVal.pnum q else PyVal.pnone) = PyVal.pnum r := by
  cases b
  · simp at h
  · exact ⟨q, by simp⟩

/-- A decoded optional timestamp cell that is not `None` is a timestamp. -/
theorem pdatetime_of_ne_pnone (b : Bool) (q : ℚ)
    (h : (if b then PyVal.pdatetime q else PyVal.pnone) ≠ PyVal.pnone) :
    ∃ r, (if b then PyVal.pdatetime q else PyVal.pnone) = PyVal.pdatetime r := by
  cases b
  · simp at h
  · exact ⟨q, by simp⟩

/-- C10: for full-length wire rows, every record that survives the
`dropna` of `get_states` has a non-null longitude, latitude, observation
timestamp and track angle; and a decoded row holding a `None` in any
retained field is dropped from the snapshot wholesale. -/
theorem C10_theorem (rows : List (List Json)) (hlen : ∀ row ∈ rows, 11 ≤ row.length) :
    (∀ r ∈ statesRecords rows,
      (∃ q, r.lookup ("longitude") = some (PyVal.pnum q))
      ∧ (∃ q, r.lookup ("latitude") = some (PyVal.pnum q))
      ∧ (∃ t, r.lookup ("time_position") = some (PyVal.pdatetime t))
      ∧ (∃ q, r.lookup ("azimuth") = some (PyVal.pnum q)))
    ∧ (∀ row ∈ rows,
        (parseInstance row STATE_COLUMNS).any (fun field => field.2 == PyVal.pnone) →
        parseInstance row STATE_COLUMNS ∉ statesRecords rows) := by
  constructor
  · intro r hr
    rw [statesRecords] at hr
    obtain ⟨hmem, hall⟩ := List.mem_filter.mp hr
    obtain ⟨row, hrow, rfl⟩ := List.mem_map.mp hmem
    have h11 := hlen row hrow
    rcases row with _ | ⟨a0, row⟩; · simp at h11
    rcases row with _ | ⟨a1, row⟩; · simp at h11
    rcases row with _ | ⟨a2, row⟩; · simp at h11
    rcases row with _ | ⟨a3, row⟩; · simp at h11
    rcases row with _ | ⟨a4, row⟩; · simp at h11
    rcases row with _ | ⟨a5, row⟩; · simp at h11
    rcases row with _ | ⟨a6, row⟩; · simp at h11
    rcases row with _ | ⟨a7, row⟩; · simp at h11
    rcases row with _ | ⟨a8, row⟩; · simp at h11
    rcases row with _ | ⟨a9, row⟩; · simp at h11
    rcases row with _ | ⟨a10, row⟩; · simp at h11
    simp only [STATE_COLUMNS, parseInstance_cons_some, parseInstance_cons_none,
      parseInstance_none_cols row _ state_tail_none] at hall ⊢
    simp only [List.all_cons, List.all_nil, Bool.and_eq_true, decide_eq_true_eq,
      and_true] at hall
    obtain ⟨-, -, -, htp, hlon, hlat, -, -, haz⟩ := hall
    refine ⟨?_, ?_, ?_, ?_⟩
    · simp [List.lookup]
      exact pnum_of_ne_pnone _ _ hlon
    · simp [List.lookup]
      exact pnum_of_ne_pnone _ _ hlat
    · simp [List.lookup]
      exact pdatetime_of_ne_pnone _ _ htp
    · simp [List.lookup]
      exact pnum_of_ne_pnone _ _ haz
  · intro row hrow hany hmem
    rw [statesRecords] at hmem
    obtain ⟨-, hall⟩ := List.mem_filter.mp hmem
    simp only [List.any_eq_true, beq_iff_eq] at hany
    simp only [List.all_eq_true, decide_eq_true_eq] at hall
    obtain ⟨f, hf, hfeq⟩ := hany
    exact hall f hf hfeq

/-- C10, witness: the two-row payload — the full row survives with a
numeric longitude, the row with a `null` longitude is dropped. -/
theorem C10_witness :
    (∃ q, ((parseInstance stateRow STATE_COLUMNS).lookup ("longitude")) =
      some (PyVal.pnum q))
    ∧ parseInstance stateRowNoFix STATE_COLUMNS ∉ statesRecords statesRows := by
  have h := C10_theorem statesRows (by decide)
  constructor
  · have hmem : parseInstance stateRow STATE_COLUMNS ∈ statesRecords statesRows := by
      rw [statesRecords]
      refine List.mem_filter.mpr ⟨List.mem_map_of_mem _ (List.mem_cons_self _ _), ?_⟩
      simp [stateRow, STATE_COLUMNS, parseInstance_cons_some, parseInstance_cons_none,
        parseInstance_nil_left, truthy, asNum]
    exact (h.1 _ hmem).1
  · refine h.2 stateRowNoFix (List.mem_cons_of_mem _ (List.mem_cons_self _ _)) ?_
    simp [stateRowNoFix, STATE_COLUMNS, parseInstance_cons_some, parseInstance_cons_none,
      parseInstance_nil_left, truthy, asNum]

/-! Geodesy lemmas shared by the prediction claims. -/

/-- `atan2 0 x` is 0 for every nonnegative `x` (including `x = 0`, where
Python's `math.atan2(0.0, 0.0)` returns 0.0). -/
theorem atan2_zero_nonneg (x : ℝ) (hx : 0 ≤ x) : atan2 0 x = 0 := by
  rcases eq_or_lt_of_le hx with h | h
  · subst h
    simp [atan2]
  · unfold atan2
    rw [if_pos h, zero_div, Real.arctan_zero]

/-- A projection step with zero displacement returns the input point, for
any latitude in the real range [-90, 90] and any bearing. -/
theorem predict_zero_displacement (lat lon bearing v tp t : ℝ)
    (h1 : -90 ≤ lat) (h2 : lat ≤ 90) (h0 : v * (t - tp) = 0) :
    predictNextLatLon lat lon bearing v tp t = (lat, lon) := by
  have hd : v * (t - tp) / 1000 / EARTH_RADIUS = 0 := by
    rw [h0]
    norm_num
  have hm1 : (0:ℝ) ≤ Real.pi * (lat + 90) :=
    mul_nonneg Real.pi_pos.le (by linarith)
  have hm2 : (0:ℝ) ≤ Real.pi * (90 - lat) :=
    mul_nonneg Real.pi_pos.le (by linarith)
  have hθ1 : -(Real.pi/2) ≤ Real.pi/180*lat := by nlinarith
  have hθ2 : Real.pi/180*lat ≤ Real.pi/2 := by nlinarith
  have hs := Real.sin_sq_le_one (Real.pi/180*lat)
  dsimp only [predictNextLatLon]
  rw [hd, Real.sin_zero, Real.cos_zero]
  simp only [mul_one, mul_zero, zero_mul, add_zero]
  rw [Real.arcsin_sin hθ1 hθ2]
  rw [atan2_zero_nonneg _ (by nlinarith)]
  simp only [add_zero, Prod.mk.injEq]
  constructor <;> (field_simp; ring)

/-- Under the zero-displacement hypothesis on every row, `predict_airplanes`
is the identity on the frame. -/
theorem predictAirplanes_id (l : List Airplane) (t : ℝ)
    (h : ∀ a ∈ l, ((-90 ≤ a.latitude ∧ a.latitude ≤ 90)
      ∧ a.velocity * (t - a.timePosition) = 0)) :
    predictAirplanes l t = l := by
  induction l with
  | nil => rfl
  | cons a l ih =>
    have ha := h a (List.mem_cons_self _ _)
    have hupd : predictNextLatLon a.latitude a.longitude a.azimuth a.velocity
        a.timePosition t = (a.latitude, a.longitude) :=
      predict_zero_displacement _ _ _ _ _ _ ha.1.1 ha.1.2 ha.2
    have hl : predictAirplanes l t = l := ih fun b hb => h b (List.mem_cons_of_mem _ hb)
    simp only [predictAirplanes, List.map_cons] at hl ⊢
    rw [hl, hupd]

/-- For bearing 0 the projected latitude is the input latitude plus the
angular distance travelled, whenever the sum stays within a quarter turn. -/
theorem predict_lat_bearing_zero (lat lon v tp t : ℝ)
    (hb1 : -(Real.pi/2) ≤ Real.pi/180*lat + v * (t - tp) / 1000 / EARTH_RADIUS)
    (hb2 : Real.pi/180*lat + v * (t - tp) / 1000 / EARTH_RADIUS ≤ Real.pi/2) :
    (predictNextLatLon lat lon 0 v tp t).1 =
      180/Real.pi * (Real.pi/180*lat + v * (t - tp) / 1000 / EARTH_RADIUS) := by
  dsimp only [predictNextLatLon]
  rw [mul_zero, Real.cos_zero, mul_one, ← Real.sin_add, Real.arcsin_sin hb1 hb2]

/-! Claim C6 — zero speed or zero elapsed time moves nothing. -/

/-- C6: the forward projection with zero speed or zero elapsed time returns
the input `(latitude, longitude)` unchanged (for any real latitude, i.e.
one in [-90, 90]); consequently a snapshot in which every record's target
time equals its `time_position` is left identically unchanged by
`predict_airplanes`. -/
theorem C6_theorem :
    (∀ lat lon bearing v tp t : ℝ, -90 ≤ lat → lat ≤ 90 → (v = 0 ∨ t - tp = 0) →
      predictNextLatLon lat lon bearing v tp t = (lat, lon))
    ∧ (∀ (l : List Airplane) (t : ℝ),
        (∀ a ∈ l, (-90 ≤ a.latitude ∧ a.latitude ≤ 90) ∧ a.timePosition = t) →
        predictAirplanes l t = l) := by
  constructor
  · intro lat lon bearing v tp t h1 h2 h0
    refine predict_zero_displacement _ _ _ _ _ _ h1 h2 ?_
    rcases h0 with h | h <;> simp [h]
  · intro l t h
    refine predictAirplanes_id l t fun a ha => ⟨(h a ha).1, ?_⟩
    rw [(h a ha).2, sub_self, mul_zero]

/-- C6, witness: a zero-speed point projection and a one-row snapshot whose
target time equals its observation time. -/
theorem C6_witness :
    predictNextLatLon 10 20 33 0 7 42 = (10, 20)
    ∧ predictAirplanes [⟨10, 20, 33, 5, 7⟩] 7 = [⟨10, 20, 33, 5, 7⟩] := by
  constructor
  · exact C6_theorem.1 10 20 33 0 7 42 (by norm_num) (by norm_num) (Or.inl rfl)
  · refine C6_theorem.2 [⟨10, 20, 33, 5, 7⟩] 7 fun a ha => ?_
    simp only [List.mem_singleton] at ha
    subst ha
    exact ⟨⟨by norm_num, by norm_num⟩, rfl⟩

/-! Claim C1 — double projection at the same target time. -/

/-- The single airplane used to refute the idempotence claim: at the
equator, heading due north, 1000 m/s, observed at epoch 0. -/
noncomputable def equatorPlane : Airplane := ⟨0, 0, 0, 1000, 0⟩

/-- C1, counterexample: the claim says projecting a snapshot twice at the
same target time is a no-op because the elapsed time is recomputed from the
unchanged `time_position`.  Precisely because `time_position` is unchanged
while the position has already moved, the second application moves the row
by the same distance again: for the equator row the single projection puts
the latitude at (180/π)·(1000/6371) degrees and the double projection at
(180/π)·(2000/6371) degrees, so the two snapshots differ. -/
theorem C1_counterexample :
    predictAirplanes (predictAirplanes [equatorPlane] 1000) 1000 ≠
      predictAirplanes [equatorPlane] 1000 := by
  intro hcontra
  have hDval : (1000:ℝ) * (1000 - 0) / 1000 / EARTH_RADIUS = 1000/6371 := by
    simp only [EARTH_RADIUS]
    norm_num
  have hb1 : -(Real.pi/2) ≤ Real.pi/180*0 + (1000:ℝ) * (1000 - 0) / 1000 / EARTH_RADIUS := by
    rw [hDval]
    nlinarith [Real.pi_pos]
  have hb2 : Real.pi/180*0 + (1000:ℝ) * (1000 - 0) / 1000 / EARTH_RADIUS ≤ Real.pi/2 := by
    rw [hDval]
    nlinarith [Real.pi_gt_three]
  have h1 : (predictNextLatLon 0 0 0 1000 0 1000).1 =
      180/Real.pi * (Real.pi/180*0 + 1000 * (1000 - 0) / 1000 / EARTH_RADIUS) :=
    predict_lat_bearing_zero 0 0 1000 0 1000 hb1 hb2
  have hAv : (predictNextLatLon 0 0 0 1000 0 1000).1 = 180/Real.pi * ((1000:ℝ)/6371) := by
    rw [h1, hDval]
    norm_num
  have hA : Real.pi/180 * (predictNextLatLon 0 0 0 1000 0 1000).1 = (1000:ℝ)/6371 := by
    rw [hAv]
    field_simp
    ring
  have hb1' : -(Real.pi/2) ≤ Real.pi/180*(predictNextLatLon 0 0 0 1000 0 1000).1
      + (1000:ℝ) * (1000 - 0) / 1000 / EARTH_RADIUS := by
    rw [hA, hDval]
    nlinarith [Real.pi_pos]
  have hb2' : Real.pi/180*(predictNextLatLon 0 0 0 1000 0 1000).1
      + (1000:ℝ) * (1000 - 0) / 1000 / EARTH_RADIUS ≤ Real.pi/2 := by
    rw [hA, hDval]
    nlinarith [Real.pi_gt_three]
  have h2 : (predictNextLatLon (predictNextLatLon 0 0 0 1000 0 1000).1
      (predictNextLatLon 0 0 0 1000 0 1000).2 0 1000 0 1000).1 =
      180/Real.pi * (Real.pi/180*(predictNextLatLon 0 0 0 1000 0 1000).1
        + 1000 * (1000 - 0) / 1000 / EARTH_RADIUS) :=
    predict_lat_bearing_zero _ _ 1000 0 1000 hb1' hb2'
  have e1 : predictAirplanes [equatorPlane] 1000 =
      [⟨(predictNextLatLon 0 0 0 1000 0 1000).1,
        (predictNextLatLon 0 0 0 1000 0 1000).2, 0, 1000, 0⟩] := rfl
  have e2 : predictAirplanes (predictAirplanes [equatorPlane] 1000) 1000 =
      [⟨(predictNextLatLon (predictNextLatLon 0 0 0 1000 0 1000).1
          (predictNextLatLon 0 0 0 1000 0 1000).2 0 1000 0 1000).1,
        (predictNextLatLon (predictNextLatLon 0 0 0 1000 0 1000).1
          (predictNextLatLon 0 0 0 1000 0 1000).2 0 1000 0 1000).2, 0, 1000, 0⟩] := by
    rw [e1]
    rfl
  rw [e2, e1] at hcontra
  simp only [List.cons.injEq, and_true, Airplane.mk.injEq] at hcontra
  have hlat := hcontra.1
  rw [h2, hA, hDval, hAv] at hlat
  have h180 : (180:ℝ)/Real.pi ≠ 0 := div_ne_zero (by norm_num) Real.pi_ne_zero
  have := mul_left_cancel₀ h180 hlat
  norm_num at this

/-- C1, amended: double application at the same target time is not
idempotent in general (see the counterexample): the elapsed time is
recomputed from the unchanged `time_position` while the position has
already moved, so the second application projects the already-moved
position by the same distance again.  It is guaranteed to agree with single
application whenever every row's `velocity * (t - time_position)`
displacement is zero (and its latitude is a real latitude) — a sufficient
condition. -/
theorem C1_theorem (l : List Airplane) (t : ℝ)
    (h : ∀ a ∈ l, ((-90 ≤ a.latitude ∧ a.latitude ≤ 90)
      ∧ a.velocity * (t - a.timePosition) = 0)) :
    predictAirplanes (predictAirplanes l t) t = predictAirplanes l t := by
  rw [predictAirplanes_id l t h]
  exact predictAirplanes_id l t h

/-- C1, witness: the amended theorem on a zero-velocity row. -/
theorem C1_witness :
    predictAirplanes (predictAirplanes [⟨10, 20, 33, 0, 7⟩] 99) 99 =
      predictAirplanes [⟨10, 20, 33, 0, 7⟩] 99 := by
  refine C1_theorem _ _ fun a ha => ?_
  simp only [List.mem_singleton] at ha
  subst ha
  exact ⟨⟨by norm_num, by norm_num⟩, by norm_num⟩

end SkyExplorer
